import Mathlib

/-!
Shallow embedding of the Liar's Dice rules engine
(`src/state.py`, `src/dice.py`, `src/players.py`, `src/bid.py`,
`src/round_handler.py`, `src/game_handler.py`).

Conventions of the embedding:
* Python objects become immutable Lean structures; mutation becomes explicit
  state passing.  An operation that mutates a `RoundHandler` returns
  `Except Err α × RoundHandler`; when the Python code raises an exception the
  returned state contains exactly the mutations committed before the raise
  (Python does not roll anything back).
* Python exceptions are mapped to the error taxonomy of the design document
  (`InvalidArgument` / `InvalidState` / `NotFound`); raw `IndexError`s coming
  from list indexing (`self.dice[0]`, `list.pop()` on an empty list,
  `self.players[i]`) are kept as a separate constructor since they belong to
  no taxonomy class.  The infinite `while True` loop of `next_player` is
  modelled by a bounded scan (the loop revisits the same `len(players)`
  positions forever, so it finds a `WAITING` player within one lap or never);
  the never case is the `Nontermination` error.
* `randint` draws are replaced by an explicit entropy source
  `entropy : Nat → Nat → Nat` (player index → die index → raw draw); a die
  with `sides` faces turns a raw draw `e` into the face `1 + e % sides`,
  which ranges over `[1, sides]` exactly as `randint(1, sides)` does.
* A Python reference to a `Player` held inside a `Bid` (`bid.player`) becomes
  the index of that player in the shared `players` list: the list is never
  reordered or shrunk by the code, so the index is a faithful stand-in for
  the alias.
-/

/-- `PlayerState` enumeration from `src/state.py`. -/
inductive PlayerState where
  | ACTIVE
  | LOST
  | WAITING
  | WON
deriving DecidableEq, Repr, Inhabited

/-- `GameState` enumeration from `src/state.py`. -/
inductive GameState where
  | RUNNING
  | OVER
deriving DecidableEq, Repr, Inhabited

/-- Error taxonomy (design document §7) plus the two raw runtime failures the
Python code can actually produce (`IndexError` from list indexing, and the
non-terminating scan of `next_player`). -/
inductive Err where
  | InvalidArgument : String → Err
  | InvalidState : String → Err
  | NotFound : String → Err
  | IndexError : Err
  | Nontermination : Err
deriving DecidableEq, Repr, Inhabited

/-- Decidable equality for `Except`, so that concrete runs of the embedded
operations can be checked by `decide`. -/
instance {ε α : Type} [DecidableEq ε] [DecidableEq α] :
    DecidableEq (Except ε α) := fun a b =>
  match a, b with
  | .error e, .error f =>
    match decEq e f with
    | .isTrue h => .isTrue (by rw [h])
    | .isFalse h => .isFalse (by intro hh; cases hh; exact h rfl)
  | .ok x, .ok y =>
    match decEq x y with
    | .isTrue h => .isTrue (by rw [h])
    | .isFalse h => .isFalse (by intro hh; cases hh; exact h rfl)
  | .error _, .ok _ => .isFalse (fun hh => by cases hh)
  | .ok _, .error _ => .isFalse (fun hh => by cases hh)

/-- `Die` from `src/dice.py`: only its `sides` attribute matters to the core
(the constructor validates `sides ≥ 2`). -/
structure Die where
  sides : Nat
deriving DecidableEq, Repr, Inhabited

/-- The value `Die.roll` produces for a raw entropy draw `e`:
`randint(1, sides)` yields a value in `[1, sides]`, modelled as
`1 + e % sides`. -/
def Die.rollValue (d : Die) (e : Nat) : Int :=
  ((1 + e % d.sides : Nat) : Int)

/-- `Player` from `src/players.py`. -/
structure Player where
  name : String
  state : PlayerState
  dice : List Die
  last_roll : List Int
deriving DecidableEq, Repr, Inhabited

namespace Player

/-- `Player.__init__(name, dice_count)`: validates `dice_count ≥ 1`, starts
in `WAITING` with `dice_count` standard six-sided dice and an empty roll
record. -/
def init (name : String) (dice_count : Int) : Except Err Player :=
  if dice_count < 1 then
    .error (.InvalidArgument "Dice count must be greater than 0")
  else
    .ok { name := name
          state := PlayerState.WAITING
          dice := List.replicate dice_count.toNat { sides := 6 }
          last_roll := [] }

/-- `Player.get_dice_count`. -/
def get_dice_count (p : Player) : Nat := p.dice.length

/-- `Player.get_die_value`: `self.dice[0].sides` — raises `IndexError` when
the hand is empty. -/
def get_die_value (p : Player) : Except Err Nat :=
  match p.dice with
  | [] => .error .IndexError
  | d :: _ => .ok d.sides

/-- `Player.is_active`. -/
def is_active (p : Player) : Bool := p.state = PlayerState.ACTIVE

/-- `Player.make_roll(count)`: validates `1 ≤ count ≤ len(dice)`, then
appends `count` fresh rolls (die `i` rolled with entropy `entropy i`) to
`last_roll`. -/
def make_roll (entropy : Nat → Nat) (count : Int) (p : Player) :
    Except Err Player :=
  if count < 1 then
    .error (.InvalidArgument "Number of dice to roll must be greater than 0")
  else if count > (p.dice.length : Int) then
    .error (.InvalidArgument
      "Number of dice to roll must be less or equal to the number of dice in game")
  else
    let fresh := (List.range count.toNat).map
      (fun i => (p.dice.getD i default).rollValue (entropy i))
    .ok { p with last_roll := p.last_roll ++ fresh }

/-- `Player.lose_die`: `self.dice.pop()` removes the last die (raising
`IndexError` on an empty hand); reaching an empty hand sets the state to
`LOST`. -/
def lose_die (p : Player) : Except Err Player :=
  match p.dice with
  | [] => .error .IndexError
  | _ =>
    let d := p.dice.dropLast
    .ok { p with dice := d
                 state := if d.length = 0 then PlayerState.LOST else p.state }

/-- `Player.set_state(state)`: refuses to change the state of a `LOST`
player. -/
def set_state (st : PlayerState) (p : Player) : Except Err Player :=
  if p.state = PlayerState.LOST then
    .error (.InvalidState "Player cannot come back after losing")
  else
    .ok { p with state := st }

/-- `Player.reset_roll`: clears `last_roll`; raises for a `LOST` player. -/
def reset_roll (p : Player) : Except Err Player :=
  if p.state = PlayerState.LOST then
    .error (.InvalidState "Player cannot roll dice after losing")
  else
    .ok { p with last_roll := [] }

end Player

/-- `Bid` from `src/bid.py`.  `player` is the index (in the shared `players`
list) of the player object the Python bid holds a reference to. -/
structure Bid where
  quantity : Int
  value : Int
  player : Nat
deriving DecidableEq, Repr, Inhabited

namespace Bid

/-- `Bid.__init__(quantity, value, player)`: validates `quantity ≥ 1`,
`value ≥ 1` and that the authoring player is currently active.  `p` is
the player object at index `idx`. -/
def init (quantity value : Int) (idx : Nat) (p : Player) : Except Err Bid :=
  if quantity < 1 ∨ value < 1 then
    .error (.InvalidArgument "Quantity and value must be greater than 0")
  else if ¬ p.is_active then
    .error (.InvalidState "Player is not active")
  else
    .ok { quantity := quantity, value := value, player := idx }

/-- `Bid.__gt__`: the deliberately disjunctive comparison of the source. -/
def gt (a b : Bid) : Bool :=
  a.quantity > b.quantity ∨ a.value > b.value

/-- `Bid.__lt__`. -/
def lt (a b : Bid) : Bool :=
  a.quantity < b.quantity ∨ a.value < b.value

/-- `Bid.__eq__`: same quantity, same value and same author *name*
(`self.player.name == other.player.name`); `ps` is the shared player list
the two bids' player indices refer into. -/
def eq (ps : List Player) (a b : Bid) : Bool :=
  a.quantity = b.quantity ∧ a.value = b.value ∧
    (ps.getD a.player default).name = (ps.getD b.player default).name

/-- `Bid.get_player_name`. -/
def get_player_name (ps : List Player) (b : Bid) : String :=
  (ps.getD b.player default).name

end Bid

/-- `RoundHandler` from `src/round_handler.py`. -/
structure RoundHandler where
  players : List Player
  round_number : Nat
  current_player_id : Nat
  current_bid : Option Bid
  dice_count : Nat
deriving DecidableEq, Repr, Inhabited

namespace RoundHandler

/-- `RoundHandler.__init__(players)`. -/
def init (players : List Player) : RoundHandler :=
  { players := players
    round_number := 0
    current_player_id := 0
    current_bid := none
    dice_count := (players.map Player.get_dice_count).sum }

/-- The per-player loop of `start_round`:
`for player in self.players: player.make_roll(player.get_dice_count())`.
On a raise the already-processed prefix keeps its new rolls (committed
mutations), the failing player and the suffix are untouched. -/
def rollAll (entropy : Nat → Nat → Nat) : Nat → List Player →
    Except Err Unit × List Player
  | _, [] => (.ok (), [])
  | i, p :: rest =>
    match p.make_roll (entropy i) (p.get_dice_count : Int) with
    | .error e => (.error e, p :: rest)
    | .ok p' =>
      let r := rollAll entropy (i + 1) rest
      (r.1, p' :: r.2)

/-- `RoundHandler.start_round()`: increments the round number, rerolls every
player's full hand, clears the current bid, then activates the player at
`current_player_id` through `set_state`. -/
def start_round (entropy : Nat → Nat → Nat) (s : RoundHandler) :
    Except Err Unit × RoundHandler :=
  let s1 := { s with round_number := s.round_number + 1 }
  match rollAll entropy 0 s1.players with
  | (.error e, ps') => (.error e, { s1 with players := ps' })
  | (.ok _, ps') =>
    let s2 := { s1 with players := ps', current_bid := none }
    match s2.players.get? s2.current_player_id with
    | none => (.error .IndexError, s2)
    | some p =>
      match p.set_state PlayerState.ACTIVE with
      | .error e => (.error e, s2)
      | .ok p' =>
        (.ok (), { s2 with players := s2.players.set s2.current_player_id p' })

/-- `RoundHandler.get_player_by_name(name)`: linear scan returning the first
player with the given name (as its index), `NotFound` otherwise. -/
def get_player_by_name (name : String) (s : RoundHandler) : Except Err Nat :=
  match s.players.findIdx? (fun p => p.name = name) with
  | some i => .ok i
  | none => .error (.NotFound "Player not found")

/-- `RoundHandler.is_higher_bid(new_bid, current_bid)` — note: unlike
`Bid.__gt__` this comparison is lexicographic (higher quantity, or equal
quantity and higher value). -/
def is_higher_bid (new_bid : Bid) (current_bid : Option Bid) : Bool :=
  match current_bid with
  | none => true
  | some cb =>
    if new_bid.quantity > cb.quantity then true
    else if new_bid.quantity = cb.quantity ∧ new_bid.value > cb.value then true
    else false

/-- `RoundHandler.next_player()`: demotes the player at `current_player_id`
to `WAITING` by a *direct field assignment* (not `set_state`), then scans
circularly from `current_player_id + 1` for the first `WAITING` player and
activates it (again by direct assignment).  The scan visits the positions
`(current_player_id + 1 + k) % n` for `k = 0, 1, …`; after `n` steps it has
seen every position, so a full lap without a hit means the Python loop runs
forever (`Nontermination`). -/
def next_player (s : RoundHandler) : Except Err Unit × RoundHandler :=
  match s.players.get? s.current_player_id with
  | none => (.error .IndexError, s)
  | some p =>
    let ps := s.players.set s.current_player_id
      { p with state := PlayerState.WAITING }
    let n := ps.length
    match ((List.range n).map (fun k => (s.current_player_id + 1 + k) % n)).find?
        (fun i => (ps.getD i default).state = PlayerState.WAITING) with
    | none => (.error .Nontermination, { s with players := ps })
    | some i =>
      (.ok (), { s with
        players := ps.set i { (ps.getD i default) with state := PlayerState.ACTIVE }
        current_player_id := i })

/-- `RoundHandler.make_bid(player_name, number_of_dice, dice_value)`. -/
def make_bid (player_name : String) (number_of_dice dice_value : Int)
    (s : RoundHandler) : Except Err Unit × RoundHandler :=
  match s.get_player_by_name player_name with
  | .error e => (.error e, s)
  | .ok idx =>
    let player := s.players.getD idx default
    if dice_value < 1 then
      (.error (.InvalidArgument "Bid value must be greater than 0"), s)
    else
      match player.get_die_value with
      | .error e => (.error e, s)
      | .ok dv =>
        if dice_value > (dv : Int) then
          (.error (.InvalidArgument
            "Bid value must be less or equal to the value of dice in game"), s)
        else if number_of_dice > (s.dice_count : Int) then
          (.error (.InvalidArgument
            "Number of dice must be equal or less than number of dice in game"), s)
        else if player.state ≠ PlayerState.ACTIVE then
          (.error (.InvalidState "Player is not active"), s)
        else
          match Bid.init number_of_dice dice_value idx player with
          | .error e => (.error e, s)
          | .ok new_bid =>
            if ¬ is_higher_bid new_bid s.current_bid then
              (.error (.InvalidArgument "Bid must be higher than the previous one"), s)
            else
              next_player { s with current_bid := some new_bid }

/-- `RoundHandler.count_dice_value(value)`: validates the value against the
face count of the player at `current_player_id`, then counts occurrences of
`value` over every player's `last_roll`. -/
def count_dice_value (value : Int) (s : RoundHandler) : Except Err Int :=
  match s.players.get? s.current_player_id with
  | none => .error .IndexError
  | some cur =>
    match cur.get_die_value with
    | .error e => .error e
    | .ok maxv =>
      if value < 1 ∨ value > (maxv : Int) then
        .error (.InvalidArgument "Value must be between 1 and the max die value")
      else
        .ok ((s.players.map
          (fun p => p.last_roll.countP (fun r => r = value))).sum : Nat)

/-- `RoundHandler.eliminate_player(player)`: direct assignment of `LOST`. -/
def eliminate_player (i : Nat) (s : RoundHandler) : RoundHandler :=
  match s.players.get? i with
  | none => s
  | some p =>
    { s with players := s.players.set i { p with state := PlayerState.LOST } }

/-- `RoundHandler.apply_penalty(player)`: one `lose_die`, then
`eliminate_player` if the hand is now empty.  `i` is the index of the player
reference the source receives. -/
def apply_penalty (i : Nat) (s : RoundHandler) :
    Except Err Unit × RoundHandler :=
  match s.players.get? i with
  | none => (.error .IndexError, s)
  | some p =>
    match p.lose_die with
    | .error e => (.error e, s)
    | .ok p' =>
      let s1 := { s with players := s.players.set i p' }
      if p'.get_dice_count = 0 then (.ok (), s1.eliminate_player i)
      else (.ok (), s1)

/-- The loop of `reset_players_after_round`: each player in order is
`reset_roll`ed, then eliminated if out of dice, otherwise demoted to
`WAITING` through `set_state`.  A raise leaves the failing player and the
unvisited suffix untouched (committed-prefix semantics). -/
def resetLoop : List Player → Except Err Unit × List Player
  | [] => (.ok (), [])
  | p :: rest =>
    match p.reset_roll with
    | .error e => (.error e, p :: rest)
    | .ok p1 =>
      if p1.get_dice_count = 0 then
        let r := resetLoop rest
        (r.1, { p1 with state := PlayerState.LOST } :: r.2)
      else
        match p1.set_state PlayerState.WAITING with
        | .error e => (.error e, p1 :: rest)
        | .ok p2 =>
          let r := resetLoop rest
          (r.1, p2 :: r.2)

/-- `RoundHandler.reset_players_after_round()`. -/
def reset_players_after_round (s : RoundHandler) :
    Except Err Unit × RoundHandler :=
  let r := resetLoop s.players
  (r.1, { s with players := r.2 })

/-- `RoundHandler.check_if_start_next_round()`: strictly more than one
non-`LOST` player remains. -/
def check_if_start_next_round (s : RoundHandler) : Bool :=
  (s.players.filter (fun p => p.state ≠ PlayerState.LOST)).length > 1

/-- `RoundHandler.end_game_info()`: the first non-`LOST` player's name. -/
def end_game_info (s : RoundHandler) : Except Err String :=
  match s.players.find? (fun p => p.state ≠ PlayerState.LOST) with
  | some w => .ok w.name
  | none => .error (.NotFound "No winner")

/-- `RoundHandler.get_active_player()` (as an index). -/
def get_active_player (s : RoundHandler) : Except Err Nat :=
  match s.players.findIdx? Player.is_active with
  | some i => .ok i
  | none => .error (.NotFound "No active player")

/-- `RoundHandler.resolve_challenge(bidder, challenger, target_dice_amount,
value_of_die)`: the bidder loses when the actual count is strictly below the
bid quantity, the challenger loses otherwise.  Player references are indices
here. -/
def resolve_challenge (bidder challenger : Nat)
    (target_dice_amount value_of_die : Int) : Nat :=
  if value_of_die < target_dice_amount then bidder else challenger

/-- `RoundHandler.challenge_and_end_round(player_name)`. -/
def challenge_and_end_round (entropy : Nat → Nat → Nat) (player_name : String)
    (s : RoundHandler) : Except Err String × RoundHandler :=
  match s.current_bid with
  | none => (.error (.InvalidArgument "No bid to challenge"), s)
  | some bid =>
    match s.get_player_by_name player_name with
    | .error e => (.error e, s)
    | .ok ci =>
      if (s.players.getD ci default).state ≠ PlayerState.ACTIVE then
        (.error (.InvalidState "Player is not active"), s)
      else
        match s.count_dice_value bid.value with
        | .error e => (.error e, s)
        | .ok cnt =>
          let loser := resolve_challenge bid.player ci bid.quantity cnt
          let loserName := (s.players.getD loser default).name
          match s.apply_penalty loser with
          | (.error e, s') => (.error e, s')
          | (.ok _, s1) =>
            match s1.reset_players_after_round with
            | (.error e, s') => (.error e, s')
            | (.ok _, s2) =>
              if s2.check_if_start_next_round then
                match s2.start_round entropy with
                | (.error e, s3) => (.error e, s3)
                | (.ok _, s3) => (.ok loserName, s3)
              else
                match s2.end_game_info with
                | .error e => (.error e, s2)
                | .ok _ => (.ok loserName, s2)

end RoundHandler

/-- `GameHandler` from `src/game_handler.py`.  The Python object shares its
`players` list with its `RoundHandler`; the embedding therefore keeps the
single canonical copy inside `rh`. -/
structure GameHandler where
  players_names : List String
  dice_count : Int
  rh : RoundHandler
  game_state : GameState
deriving DecidableEq, Repr, Inhabited

namespace GameHandler

/-- `GameHandler.create_players(players_names)`. -/
def create_players (dice_count : Int) (players_names : List String) :
    Except Err (List Player) :=
  players_names.foldr
    (fun n acc =>
      match Player.init n dice_count with
      | .error e => .error e
      | .ok p =>
        match acc with
        | .error e => .error e
        | .ok ps => .ok (p :: ps))
    (.ok [])

/-- `GameHandler.__init__(players_names, dice_count)`: validates the dice
count, creates the players, builds the round handler and sets the game state
to `RUNNING`. -/
def init (players_names : List String) (dice_count : Int) :
    Except Err GameHandler :=
  if dice_count < 1 then
    .error (.InvalidArgument "Dice count must be more or equal to 1")
  else
    match create_players dice_count players_names with
    | .error e => .error e
    | .ok players =>
      .ok { players_names := players_names
            dice_count := dice_count
            rh := RoundHandler.init players
            game_state := GameState.RUNNING }

/-- `GameHandler.play_bid_turn(active_player, number_of_dice, dice_value)`:
checks the handed-in player reference is `ACTIVE`, then forwards to
`make_bid` with the player's name.  `i` is the index of the reference. -/
def play_bid_turn (i : Nat) (number_of_dice dice_value : Int)
    (g : GameHandler) : Except Err Unit × GameHandler :=
  match g.rh.players.get? i with
  | none => (.error .IndexError, g)
  | some p =>
    if p.state ≠ PlayerState.ACTIVE then
      (.error (.InvalidState "Player is not active"), g)
    else
      let r := g.rh.make_bid p.name number_of_dice dice_value
      (r.1, { g with rh := r.2 })

/-- `GameHandler.play_challenge_turn(active_player)`. -/
def play_challenge_turn (entropy : Nat → Nat → Nat) (i : Nat)
    (g : GameHandler) : Except Err String × GameHandler :=
  match g.rh.players.get? i with
  | none => (.error .IndexError, g)
  | some p =>
    if p.state ≠ PlayerState.ACTIVE then
      (.error (.InvalidState "Player is not active"), g)
    else
      let r := g.rh.challenge_and_end_round entropy p.name
      (r.1, { g with rh := r.2 })

/-- `GameHandler.start_round()`. -/
def start_round (entropy : Nat → Nat → Nat) (g : GameHandler) :
    Except Err Unit × GameHandler :=
  let r := g.rh.start_round entropy
  (r.1, { g with rh := r.2 })

end GameHandler

/-! ## Concrete fixtures used by several claims -/

/-- Deterministic entropy source: every raw draw is `0`, so every six-sided
die rolls `1`. -/
def entZero : Nat → Nat → Nat := fun _ _ => 0

/-- A hand of `n` standard six-sided dice. -/
def diceSix (n : Nat) : List Die := List.replicate n { sides := 6 }

/-- Waiting player with one die. -/
def janOne : Player :=
  { name := "Jan", state := PlayerState.WAITING, dice := diceSix 1, last_roll := [] }

/-- Waiting player with one die. -/
def kowOne : Player :=
  { name := "Kow", state := PlayerState.WAITING, dice := diceSix 1, last_roll := [] }

/-- Active player with five dice. -/
def janFive : Player :=
  { name := "Jan", state := PlayerState.ACTIVE, dice := diceSix 5, last_roll := [] }

/-- Waiting player with five dice. -/
def kowFive : Player :=
  { name := "Kow", state := PlayerState.WAITING, dice := diceSix 5, last_roll := [] }

/-- Two players, one die each; the game of `main.py` with starting hand 1. -/
def rhJK0 : RoundHandler := RoundHandler.init [janOne, kowOne]

/-- `rhJK0` after the first `start_round` (both roll a 1, Jan is active). -/
def rhJK1 : RoundHandler := (rhJK0.start_round entZero).2

/-- `rhJK1` after Jan's opening bid of one die showing 1 (Kow becomes
active). -/
def rhJK2 : RoundHandler := (rhJK1.make_bid "Jan" 1 1).2

/-! ## C1 — the ordering rule `make_bid` actually enforces -/

/-- C1 counterexample.  Mid-round state: current bid is (quantity 5, value 1)
by Kow, Jan is active with five six-sided dice and ten dice are in play, so a
candidate bid (quantity 2, value 6) passes every other validation. -/
def rhBidLow : RoundHandler :=
  { players := [janFive, kowFive]
    round_number := 1
    current_player_id := 0
    current_bid := some { quantity := 5, value := 1, player := 1 }
    dice_count := 10 }

/-- C1 counterexample: with current bid (5, 1), the candidate (2, 6) is
*strictly higher* under the §3 disjunctive ordering (its `Bid.gt` comparison
returns true since 6 > 1), yet `make_bid` rejects it as too low and leaves
the state unchanged — `make_bid` uses the lexicographic `is_higher_bid`, not
the disjunctive rule the claim states. -/
theorem C1_counterexample :
    Bid.gt { quantity := 2, value := 6, player := 0 }
        { quantity := 5, value := 1, player := 1 } = true ∧
    rhBidLow.make_bid "Jan" 2 6 =
      (.error (.InvalidArgument "Bid must be higher than the previous one"),
       rhBidLow) := by
  decide

/-- C1 (amended): for an active, name-resolved player whose candidate bid
passes the other validations, `make_bid` accepts the candidate iff it is
higher under the *lexicographic* rule of `is_higher_bid` (strictly greater
quantity, or equal quantity and strictly greater face value); a candidate
with lower quantity is rejected whatever its face value; when the current
bid is null every such candidate is accepted.  Acceptance installs the bid
and advances the rotation; rejection returns an `InvalidArgument` ("bid too
low") with the state unchanged. -/
theorem C1_make_bid_lexicographic :
    (∀ b : Bid, RoundHandler.is_higher_bid b none = true) ∧
    (∀ b cb : Bid, RoundHandler.is_higher_bid b (some cb) = true ↔
       (b.quantity > cb.quantity ∨
        (b.quantity = cb.quantity ∧ b.value > cb.value))) ∧
    (∀ b cb : Bid, b.quantity < cb.quantity →
       RoundHandler.is_higher_bid b (some cb) = false) ∧
    (∀ (s : RoundHandler) (name : String) (q v : Int) (i : Nat) (dv : Nat),
       s.get_player_by_name name = .ok i →
       ¬ v < 1 →
       (s.players.getD i default).get_die_value = .ok dv →
       ¬ v > (dv : Int) →
       ¬ q > (s.dice_count : Int) →
       (s.players.getD i default).state = PlayerState.ACTIVE →
       ¬ q < 1 →
       ((¬ RoundHandler.is_higher_bid ⟨q, v, i⟩ s.current_bid = true →
           s.make_bid name q v =
             (.error (.InvalidArgument "Bid must be higher than the previous one"),
              s)) ∧
        (RoundHandler.is_higher_bid ⟨q, v, i⟩ s.current_bid = true →
           s.make_bid name q v =
             RoundHandler.next_player
               { s with current_bid := some ⟨q, v, i⟩ }))) := by
  refine ⟨fun b => rfl, ?_, ?_, ?_⟩
  · intro b cb
    simp only [RoundHandler.is_higher_bid]
    split
    · simp_all
    · split <;> simp_all
  · intro b cb h
    simp only [RoundHandler.is_higher_bid]
    split
    · omega
    · split <;> simp_all
  · intro s name q v i dv hfound hv1 hdv hv2 hq hact hq1
    have hmb : s.make_bid name q v =
        (if ¬ RoundHandler.is_higher_bid ⟨q, v, i⟩ s.current_bid = true then
          (.error (.InvalidArgument "Bid must be higher than the previous one"), s)
        else
          RoundHandler.next_player
            { s with current_bid := some (⟨q, v, i⟩ : Bid) }) := by
      simp only [RoundHandler.make_bid, hfound, hdv, Bid.init, Player.is_active,
        hact, if_neg hv1, if_neg hv2, if_neg hq]
      simp [hact, hv1, hq1]
    constructor
    · intro hlow
      rw [hmb, if_pos hlow]
    · intro hhigh
      rw [hmb, if_neg (by simp [hhigh])]

/-! ## C2 — challenge resolution crashes when the penalty eliminates -/

/-- C2: the failing elimination run.  From the freshly constructed two-player
game (`rhJK0`), a round starts, Jan bids one die showing 1, and Kow
challenges.  Both recorded rolls show 1, so the count (2) is ≥ the bid
quantity (1) and the challenger Kow loses their only die.  The claim (and
the spec) say the operation then clears every player's `lastRoll` and
returns the loser's name; the code instead raises from `reset_roll` on the
freshly eliminated loser: no name is returned, Kow stays `LOST` with an
uncleared roll record. -/
theorem C2_theorem :
    (rhJK0.start_round entZero).1 = .ok () ∧
    (rhJK1.make_bid "Jan" 1 1).1 = .ok () ∧
    (rhJK2.challenge_and_end_round entZero "Kow").1 =
      .error (.InvalidState "Player cannot roll dice after losing") ∧
    (((rhJK2.challenge_and_end_round entZero "Kow").2).players.getD 1
        default).state = PlayerState.LOST ∧
    (((rhJK2.challenge_and_end_round entZero "Kow").2).players.getD 1
        default).last_roll = [1] := by
  decide

/-! ## C3 — the Bid comparisons are not a total ordering -/

/-- C3 counterexample: the valid bids A = (quantity 2, value 6) and
B = (quantity 5, value 1), both authored by the active player `janFive`
(their constructions succeed), satisfy A > B and B > A *simultaneously*
(and A < B as well), refuting trichotomy and in particular the claim that
A > B and B > A are never both true. -/
theorem C3_counterexample :
    Bid.init 2 6 0 janFive = .ok { quantity := 2, value := 6, player := 0 } ∧
    Bid.init 5 1 0 janFive = .ok { quantity := 5, value := 1, player := 0 } ∧
    Bid.gt { quantity := 2, value := 6, player := 0 }
        { quantity := 5, value := 1, player := 0 } = true ∧
    Bid.gt { quantity := 5, value := 1, player := 0 }
        { quantity := 2, value := 6, player := 0 } = true ∧
    Bid.lt { quantity := 2, value := 6, player := 0 }
        { quantity := 5, value := 1, player := 0 } = true := by
  decide

/-- C3 (amended): the Bid comparisons are the literal disjunctive rules
(A > B iff quantity or value is strictly greater, A < B iff quantity or
value is strictly smaller), so they do not form a total ordering — there
are valid bids with A > B and B > A at once; the self-consistency law
`isHigher(A, null) = true` does hold for every bid A. -/
theorem C3_not_total_order :
    (∀ a b : Bid, Bid.gt a b = true ↔
       (a.quantity > b.quantity ∨ a.value > b.value)) ∧
    (∀ a b : Bid, Bid.lt a b = true ↔
       (a.quantity < b.quantity ∨ a.value < b.value)) ∧
    (∃ a b : Bid, Bid.gt a b = true ∧ Bid.gt b a = true) ∧
    (∀ b : Bid, RoundHandler.is_higher_bid b none = true) := by
  refine ⟨?_, ?_, ?_, fun b => rfl⟩
  · intro a b; simp [Bid.gt]
  · intro a b; simp [Bid.lt]
  · exact ⟨{ quantity := 2, value := 6, player := 0 },
           { quantity := 5, value := 1, player := 0 }, by decide, by decide⟩

/-! ## C6 — challenge resolution rule -/

/-- Bidder fixture for the C6 scenarios: three dice, two of them showing the
bid value 4. -/
def annaTwoFours : Player :=
  { name := "Anna", state := PlayerState.WAITING, dice := diceSix 3,
    last_roll := [4, 4, 1] }

/-- Bidder fixture with three dice showing the bid value 4. -/
def annaThreeFours : Player :=
  { name := "Anna", state := PlayerState.WAITING, dice := diceSix 3,
    last_roll := [4, 4, 4] }

/-- Active challenger fixture with no die showing 4. -/
def belaChallenger : Player :=
  { name := "Bela", state := PlayerState.ACTIVE, dice := diceSix 3,
    last_roll := [2, 3, 5] }

/-- Round state for the spec §8 example with actual count 2 of value 4
against the standing bid (quantity 3, value 4) by Anna. -/
def rhCountTwo : RoundHandler :=
  { players := [annaTwoFours, belaChallenger]
    round_number := 1
    current_player_id := 1
    current_bid := some { quantity := 3, value := 4, player := 0 }
    dice_count := 6 }

/-- Round state for the spec §8 example with actual count 3 of value 4. -/
def rhCountThree : RoundHandler :=
  { players := [annaThreeFours, belaChallenger]
    round_number := 1
    current_player_id := 1
    current_bid := some { quantity := 3, value := 4, player := 0 }
    dice_count := 6 }

/-- C6: `resolve_challenge` names the bidder the loser exactly when the
actual count is strictly below the bid quantity and the challenger
otherwise; `count_dice_value` is the occurrence count of the face value over
every player's recorded roll; and on the spec's own example (bid quantity 3,
value 4) the full challenge pipeline returns the bidder ("Anna") as loser
with 2 matching dice recorded and the challenger ("Bela") with 3. -/
theorem C6_resolution_rule :
    (∀ (bidder challenger : Nat) (q cnt : Int), cnt < q →
       RoundHandler.resolve_challenge bidder challenger q cnt = bidder) ∧
    (∀ (bidder challenger : Nat) (q cnt : Int), cnt ≥ q →
       RoundHandler.resolve_challenge bidder challenger q cnt = challenger) ∧
    (∀ (s : RoundHandler) (v : Int) (cur : Player) (maxv : Nat),
       s.players.get? s.current_player_id = some cur →
       cur.get_die_value = .ok maxv →
       ¬ (v < 1 ∨ v > (maxv : Int)) →
       s.count_dice_value v =
         .ok (((s.players.map
             (fun p => p.last_roll.countP (fun r => r = v))).sum : Nat))) ∧
    (rhCountTwo.challenge_and_end_round entZero "Bela").1 = .ok "Anna" ∧
    (rhCountThree.challenge_and_end_round entZero "Bela").1 = .ok "Bela" := by
  refine ⟨?_, ?_, ?_, by decide, by decide⟩
  · intro bidder challenger q cnt h
    simp [RoundHandler.resolve_challenge, h]
  · intro bidder challenger q cnt h
    simp [RoundHandler.resolve_challenge]
    omega
  · intro s v cur maxv hcur hdv hrange
    simp only [RoundHandler.count_dice_value, hcur, hdv, if_neg hrange]

/-- C6 witness: the resolution rule and the counting characterisation
applied to the count-2 fixture. -/
theorem C6_witness :
    RoundHandler.resolve_challenge 0 1 3 2 = 0 ∧
    RoundHandler.resolve_challenge 0 1 3 3 = 1 ∧
    rhCountTwo.count_dice_value 4 = .ok 2 := by
  refine ⟨C6_resolution_rule.1 0 1 3 2 (by decide),
          C6_resolution_rule.2.1 0 1 3 3 (by decide), ?_⟩
  have h := C6_resolution_rule.2.2.1 rhCountTwo 4 belaChallenger 6
    (by decide) (by decide) (by decide)
  rw [h]
  decide

/-- C1 witness: from the `rhBidLow` state, the higher-quantity candidate
(6, 2) is accepted (the bid is installed and the rotation advances), and a
first bid always compares higher than a null current bid. -/
theorem C1_witness :
    rhBidLow.make_bid "Jan" 6 2 =
      RoundHandler.next_player { rhBidLow with current_bid := some ⟨6, 2, 0⟩ } ∧
    RoundHandler.is_higher_bid ⟨1, 1, 0⟩ none = true := by
  refine ⟨?_, C1_make_bid_lexicographic.1 ⟨1, 1, 0⟩⟩
  exact (C1_make_bid_lexicographic.2.2.2 rhBidLow "Jan" 6 2 0 6 (by decide)
    (by decide) (by decide) (by decide) (by decide) (by decide) (by decide)).2
    (by decide)

/-! ## C4 — `dice_count` is fixed at construction time -/

namespace RoundHandler

/-- `next_player` never touches the `dice_count` field. -/
theorem dice_count_next_player (s : RoundHandler) :
    (s.next_player).2.dice_count = s.dice_count := by
  simp only [next_player]
  split
  · rfl
  · split <;> rfl

/-- `eliminate_player` never touches the `dice_count` field. -/
theorem dice_count_eliminate_player (i : Nat) (s : RoundHandler) :
    (s.eliminate_player i).dice_count = s.dice_count := by
  simp only [eliminate_player]
  split <;> rfl

/-- `apply_penalty` never touches the `dice_count` field. -/
theorem dice_count_apply_penalty (i : Nat) (s : RoundHandler) :
    (s.apply_penalty i).2.dice_count = s.dice_count := by
  simp only [apply_penalty]
  split
  · rfl
  · split
    · rfl
    · split
      · exact dice_count_eliminate_player _ _
      · rfl

/-- `reset_players_after_round` never touches the `dice_count` field. -/
theorem dice_count_reset_players (s : RoundHandler) :
    (s.reset_players_after_round).2.dice_count = s.dice_count := rfl

/-- `start_round` never touches the `dice_count` field. -/
theorem dice_count_start_round (e : Nat → Nat → Nat) (s : RoundHandler) :
    (s.start_round e).2.dice_count = s.dice_count := by
  simp only [start_round]
  split
  · rfl
  · split
    · rfl
    · split <;> rfl

/-- `make_bid` never touches the `dice_count` field. -/
theorem dice_count_make_bid (n : String) (q v : Int) (s : RoundHandler) :
    (s.make_bid n q v).2.dice_count = s.dice_count := by
  simp only [make_bid]
  split
  · rfl
  · split
    · rfl
    · split
      · rfl
      · split
        · rfl
        · split
          · rfl
          · split
            · rfl
            · split
              · rfl
              · split
                · rfl
                · exact dice_count_next_player _

/-- `challenge_and_end_round` never touches the `dice_count` field. -/
theorem dice_count_challenge (e : Nat → Nat → Nat) (n : String)
    (s : RoundHandler) :
    (s.challenge_and_end_round e n).2.dice_count = s.dice_count := by
  simp only [challenge_and_end_round]
  split
  · rfl
  · split
    · rfl
    · split
      · rfl
      · split
        · rfl
        · split
          · next er s1 heq =>
            have h1 := congrArg
              (fun r : Except Err Unit × RoundHandler => r.2.dice_count) heq
            simp only [dice_count_apply_penalty] at h1
            exact h1.symm
          · next u s1 heq =>
            have h1 := congrArg
              (fun r : Except Err Unit × RoundHandler => r.2.dice_count) heq
            simp only [dice_count_apply_penalty] at h1
            split
            · next er s2 heq2 =>
              have h2 := congrArg
                (fun r : Except Err Unit × RoundHandler => r.2.dice_count) heq2
              simp only [dice_count_reset_players] at h2
              exact (h2.symm.trans h1.symm)
            · next u2 s2 heq2 =>
              have h2 := congrArg
                (fun r : Except Err Unit × RoundHandler => r.2.dice_count) heq2
              simp only [dice_count_reset_players] at h2
              split
              · split
                · next er s3 heq3 =>
                  have h3 := congrArg
                    (fun r : Except Err Unit × RoundHandler => r.2.dice_count) heq3
                  simp only [dice_count_start_round] at h3
                  exact h3.symm.trans (h2.symm.trans h1.symm)
                · next u3 s3 heq3 =>
                  have h3 := congrArg
                    (fun r : Except Err Unit × RoundHandler => r.2.dice_count) heq3
                  simp only [dice_count_start_round] at h3
                  exact h3.symm.trans (h2.symm.trans h1.symm)
              · split
                · exact h2.symm.trans h1.symm
                · exact h2.symm.trans h1.symm

end RoundHandler

/-- Active player with two dice. -/
def janTwoDice : Player :=
  { name := "Jan", state := PlayerState.ACTIVE, dice := diceSix 2, last_roll := [] }

/-- Waiting player with two dice. -/
def kowTwoDice : Player :=
  { name := "Kow", state := PlayerState.WAITING, dice := diceSix 2, last_roll := [] }

/-- Handler built over four dice in play (two players, two dice each). -/
def rhFourDice : RoundHandler := RoundHandler.init [janTwoDice, kowTwoDice]

/-- `rhFourDice` after Kow loses a die: only three dice remain live but the
`dice_count` field still records the construction-time total of four. -/
def rhStale : RoundHandler := (rhFourDice.apply_penalty 1).2

/-- C4: `dice_count` equals the sum of all hand sizes at construction and no
operation (`start_round`, `make_bid`, `next_player`,
`challenge_and_end_round`, `apply_penalty`) ever modifies it; `make_bid`
checks the bid quantity against this field, rejecting `quantity >
dice_count` with `InvalidArgument`; consequently, in the `rhStale` state
where a die has been lost (three live dice, field still 4), a bid of
quantity 4 is still accepted. -/
theorem C4_dice_count_frozen :
    (∀ ps : List Player,
       (RoundHandler.init ps).dice_count = (ps.map Player.get_dice_count).sum) ∧
    (∀ (e : Nat → Nat → Nat) (s : RoundHandler),
       (s.start_round e).2.dice_count = s.dice_count) ∧
    (∀ (n : String) (q v : Int) (s : RoundHandler),
       (s.make_bid n q v).2.dice_count = s.dice_count) ∧
    (∀ s : RoundHandler, (s.next_player).2.dice_count = s.dice_count) ∧
    (∀ (e : Nat → Nat → Nat) (n : String) (s : RoundHandler),
       (s.challenge_and_end_round e n).2.dice_count = s.dice_count) ∧
    (∀ (i : Nat) (s : RoundHandler),
       (s.apply_penalty i).2.dice_count = s.dice_count) ∧
    (∀ (s : RoundHandler) (name : String) (q v : Int) (i : Nat) (dv : Nat),
       s.get_player_by_name name = .ok i →
       ¬ v < 1 →
       (s.players.getD i default).get_die_value = .ok dv →
       ¬ v > (dv : Int) →
       q > (s.dice_count : Int) →
       s.make_bid name q v =
         (.error (.InvalidArgument
           "Number of dice must be equal or less than number of dice in game"),
          s)) ∧
    rhStale.dice_count = 4 ∧
    (rhStale.players.map Player.get_dice_count).sum = 3 ∧
    (rhStale.make_bid "Jan" 4 6).1 = .ok () := by
  refine ⟨fun ps => rfl, RoundHandler.dice_count_start_round,
    RoundHandler.dice_count_make_bid, RoundHandler.dice_count_next_player,
    RoundHandler.dice_count_challenge, RoundHandler.dice_count_apply_penalty,
    ?_, by decide, by decide, by decide⟩
  intro s name q v i dv hfound hv1 hdv hv2 hq
  simp only [RoundHandler.make_bid, hfound, hdv, if_neg hv1, if_neg hv2, if_pos hq]

/-- C4 witness: in the `rhBidLow` state (ten dice in play) a bid of quantity
11 is rejected against the frozen total, and a `start_round` application
keeps the field at 10. -/
theorem C4_witness :
    rhBidLow.make_bid "Jan" 11 6 =
      (.error (.InvalidArgument
        "Number of dice must be equal or less than number of dice in game"),
       rhBidLow) ∧
    ((rhBidLow.start_round entZero).2).dice_count = rhBidLow.dice_count := by
  refine ⟨C4_dice_count_frozen.2.2.2.2.2.2.1 rhBidLow "Jan" 11 6 0 6 (by decide)
    (by decide) (by decide) (by decide) (by decide),
    C4_dice_count_frozen.2.1 entZero rhBidLow⟩

/-! ## C7 — `make_bid` failure modes -/

/-- Whether an error is of the `InvalidState` taxonomy class. -/
def Err.is_invalid_state : Err → Bool
  | .InvalidState _ => true
  | _ => false

/-- A player already eliminated: `LOST` with an empty hand. -/
def bobZero : Player :=
  { name := "Bob", state := PlayerState.LOST, dice := [], last_roll := [] }

/-- Round state containing the eliminated `bobZero` (such a state arises from
`apply_penalty` taking a one-die player's last die). -/
def rhBobLost : RoundHandler :=
  { players := [bobZero, kowFive]
    round_number := 1
    current_player_id := 1
    current_bid := none
    dice_count := 5 }

/-- C7 counterexample: "Bob" resolves by name and is not ACTIVE, yet
`make_bid` does not fail with `InvalidState`: the face-count validation
reads `dice[0]` of his empty hand first and the operation dies with a raw
`IndexError`. -/
theorem C7_counterexample :
    rhBobLost.get_player_by_name "Bob" = .ok 0 ∧
    (rhBobLost.players.getD 0 default).state ≠ PlayerState.ACTIVE ∧
    rhBobLost.make_bid "Bob" 2 3 = (.error .IndexError, rhBobLost) ∧
    Err.is_invalid_state .IndexError = false := by
  decide

/-- C7 (amended): `make_bid` validates sequentially and fails leaving the
state (in particular `current_bid` and the rotation pointer) unchanged:
`NotFound` when no player has the name; `InvalidArgument` when
`faceValue < 1`; a raw `IndexError` (not `InvalidState`) when the resolved
player's hand is empty; `InvalidArgument` when `faceValue` exceeds the
resolved player's face count or when `quantity` exceeds `dice_count`; and
`InvalidState` when the player still holds dice but is not ACTIVE. -/
theorem C7_make_bid_failures :
    (∀ (s : RoundHandler) (name : String) (q v : Int),
       s.players.findIdx? (fun p => p.name = name) = none →
       s.make_bid name q v = (.error (.NotFound "Player not found"), s)) ∧
    (∀ (s : RoundHandler) (name : String) (q v : Int) (i : Nat),
       s.get_player_by_name name = .ok i →
       v < 1 →
       s.make_bid name q v =
         (.error (.InvalidArgument "Bid value must be greater than 0"), s)) ∧
    (∀ (s : RoundHandler) (name : String) (q v : Int) (i : Nat),
       s.get_player_by_name name = .ok i →
       ¬ v < 1 →
       (s.players.getD i default).dice = [] →
       s.make_bid name q v = (.error .IndexError, s)) ∧
    (∀ (s : RoundHandler) (name : String) (q v : Int) (i : Nat) (dv : Nat),
       s.get_player_by_name name = .ok i →
       ¬ v < 1 →
       (s.players.getD i default).get_die_value = .ok dv →
       v > (dv : Int) →
       s.make_bid name q v =
         (.error (.InvalidArgument
           "Bid value must be less or equal to the value of dice in game"), s)) ∧
    (∀ (s : RoundHandler) (name : String) (q v : Int) (i : Nat) (dv : Nat),
       s.get_player_by_name name = .ok i →
       ¬ v < 1 →
       (s.players.getD i default).get_die_value = .ok dv →
       ¬ v > (dv : Int) →
       q > (s.dice_count : Int) →
       s.make_bid name q v =
         (.error (.InvalidArgument
           "Number of dice must be equal or less than number of dice in game"),
          s)) ∧
    (∀ (s : RoundHandler) (name : String) (q v : Int) (i : Nat) (dv : Nat),
       s.get_player_by_name name = .ok i →
       ¬ v < 1 →
       (s.players.getD i default).get_die_value = .ok dv →
       ¬ v > (dv : Int) →
       ¬ q > (s.dice_count : Int) →
       (s.players.getD i default).state ≠ PlayerState.ACTIVE →
       s.make_bid name q v =
         (.error (.InvalidState "Player is not active"), s)) := by
  refine ⟨?_, ?_, ?_, ?_, ?_, ?_⟩
  · intro s name q v hnone
    simp only [RoundHandler.make_bid, RoundHandler.get_player_by_name, hnone]
  · intro s name q v i hfound hv
    simp only [RoundHandler.make_bid, hfound, if_pos hv]
  · intro s name q v i hfound hv hdice
    have hdv : (s.players.getD i default).get_die_value = .error .IndexError := by
      simp only [Player.get_die_value, hdice]
    simp only [RoundHandler.make_bid, hfound, if_neg hv, hdv]
  · intro s name q v i dv hfound hv hdv hv2
    simp only [RoundHandler.make_bid, hfound, if_neg hv, hdv, if_pos hv2]
  · intro s name q v i dv hfound hv hdv hv2 hq
    simp only [RoundHandler.make_bid, hfound, if_neg hv, hdv, if_neg hv2,
      if_pos hq]
  · intro s name q v i dv hfound hv hdv hv2 hq hact
    simp only [RoundHandler.make_bid, hfound, if_neg hv, hdv, if_neg hv2,
      if_neg hq, if_pos hact]

/-- C7 witness: an unknown name fails `NotFound`; face value 7 against
six-sided dice fails `InvalidArgument`; a bid by the waiting (dice-holding)
player Kow fails `InvalidState` — each leaving the `rhBidLow` state
untouched. -/
theorem C7_witness :
    rhBidLow.make_bid "Zed" 3 3 =
      (.error (.NotFound "Player not found"), rhBidLow) ∧
    rhBidLow.make_bid "Jan" 3 7 =
      (.error (.InvalidArgument
        "Bid value must be less or equal to the value of dice in game"),
       rhBidLow) ∧
    rhBidLow.make_bid "Kow" 3 3 =
      (.error (.InvalidState "Player is not active"), rhBidLow) := by
  refine ⟨C7_make_bid_failures.1 rhBidLow "Zed" 3 3 (by decide),
    C7_make_bid_failures.2.2.2.1 rhBidLow "Jan" 3 7 0 6 (by decide) (by decide)
      (by decide) (by decide),
    C7_make_bid_failures.2.2.2.2.2 rhBidLow "Kow" 3 3 1 6 (by decide)
      (by decide) (by decide) (by decide) (by decide) (by decide)⟩

/-! ## C5 — LOST permanence, helper lemmas -/

/-- Reading an updated list at the updated (in-range) index. -/
theorem getD_set_self {l : List Player} {i : Nat} (b : Player)
    (h : i < l.length) : (l.set i b).getD i default = b := by
  simp [List.getD_eq_getElem?_getD, List.getElem?_set_eq_of_lt b h]

/-- Reading an updated list away from the updated index. -/
theorem getD_set_ne {l : List Player} {i j : Nat} (b : Player)
    (h : j ≠ i) : (l.set i b).getD j default = l.getD j default := by
  simp [List.getD_eq_getElem?_getD, List.getElem?_set_ne (Ne.symm h)]

/-- A successful positional lookup agrees with `getD`. -/
theorem getD_of_get?_eq_some {l : List Player} {i : Nat} {p : Player}
    (h : l.get? i = some p) : l.getD i default = p := by
  rw [List.get?_eq_getElem?] at h
  simp [List.getD_eq_getElem?_getD, h]

/-- A successful positional lookup means the index is in range. -/
theorem lt_length_of_get?_eq_some {l : List Player} {i : Nat} {p : Player}
    (h : l.get? i = some p) : i < l.length := by
  rw [List.get?_eq_getElem?] at h
  exact (List.getElem?_eq_some_iff.mp h).1

/-- Out-of-range reads yield the default player. -/
theorem getD_out_of_range {l : List Player} {j : Nat} (h : l.length ≤ j) :
    l.getD j default = default := by
  simp [List.getD_eq_getElem?_getD, List.getElem?_eq_none h]

namespace Player

/-- `make_roll` never changes the player's state field. -/
theorem make_roll_state {e : Nat → Nat} {c : Int} {p p' : Player}
    (h : p.make_roll e c = .ok p') : p'.state = p.state := by
  unfold make_roll at h
  split at h
  · cases h
  · split at h
    · cases h
    · cases h; rfl

/-- `reset_roll` succeeds only on non-`LOST` players and keeps the state. -/
theorem reset_roll_ok {p p1 : Player} (h : p.reset_roll = .ok p1) :
    p.state ≠ PlayerState.LOST ∧ p1.state = p.state := by
  unfold reset_roll at h
  split at h
  · cases h
  · next hne => exact ⟨hne, by cases h; rfl⟩

/-- A successful `set_state` comes from a non-`LOST` player and installs the
requested state. -/
theorem set_state_ok {st : PlayerState} {p p' : Player}
    (h : p.set_state st = .ok p') :
    p.state ≠ PlayerState.LOST ∧ p' = { p with state := st } := by
  unfold set_state at h
  split at h
  · cases h
  · next hne => exact ⟨hne, by cases h; rfl⟩

/-- A `LOST` player that loses a die (possible only in unreachable states
with dice after elimination) stays `LOST`. -/
theorem lose_die_lost {p p' : Player} (h : p.lose_die = .ok p')
    (hl : p.state = PlayerState.LOST) : p'.state = PlayerState.LOST := by
  unfold lose_die at h
  split at h
  · cases h
  · cases h
    simp only
    split
    · rfl
    · exact hl

end Player

namespace RoundHandler

/-- The rolling loop of `start_round` leaves every player's state field
untouched. -/
theorem rollAll_state (e : Nat → Nat → Nat) :
    ∀ (k : Nat) (ps : List Player) (j : Nat),
      (((rollAll e k ps).2).getD j default).state =
        (ps.getD j default).state := by
  intro k ps
  induction ps generalizing k with
  | nil => intro j; rfl
  | cons p rest ih =>
    intro j
    simp only [rollAll]
    cases hm : p.make_roll (e k) (p.get_dice_count : Int) with
    | error err => rfl
    | ok p' =>
      cases j with
      | zero => simpa using Player.make_roll_state hm
      | succ j => simpa using ih (k + 1) j

/-- The reset loop preserves `LOST` at every position. -/
theorem resetLoop_lost :
    ∀ (ps : List Player) (j : Nat),
      (ps.getD j default).state = PlayerState.LOST →
      (((resetLoop ps).2).getD j default).state = PlayerState.LOST := by
  intro ps
  induction ps with
  | nil => intro j h; exact h
  | cons p rest ih =>
    intro j h
    cases j with
    | zero =>
      have hp : p.state = PlayerState.LOST := by simpa using h
      simp only [resetLoop, Player.reset_roll, if_pos hp]
      simpa using hp
    | succ j =>
      have hrest : (rest.getD j default).state = PlayerState.LOST := by
        simpa using h
      simp only [resetLoop]
      cases hr : p.reset_roll with
      | error e => simpa using h
      | ok p1 =>
        by_cases h0 : p1.get_dice_count = 0
        · simp only [if_pos h0]
          simpa using ih j hrest
        · simp only [if_neg h0]
          cases hs : p1.set_state PlayerState.WAITING with
          | error e => simpa using h
          | ok p2 => simpa using ih j hrest

/-- `eliminate_player` preserves `LOST` at every position. -/
theorem eliminate_player_lost (i : Nat) (s : RoundHandler) (j : Nat)
    (h : (s.players.getD j default).state = PlayerState.LOST) :
    (((s.eliminate_player i).players.getD j default)).state =
      PlayerState.LOST := by
  simp only [eliminate_player]
  split
  · exact h
  · next p hp =>
    by_cases hij : j = i
    · subst hij
      rw [getD_set_self _ (lt_length_of_get?_eq_some hp)]
    · rw [getD_set_ne _ hij]
      exact h

/-- `apply_penalty` preserves `LOST` at every position. -/
theorem apply_penalty_lost (i : Nat) (s : RoundHandler) (j : Nat)
    (h : (s.players.getD j default).state = PlayerState.LOST) :
    (((s.apply_penalty i).2).players.getD j default).state =
      PlayerState.LOST := by
  simp only [apply_penalty]
  split
  · exact h
  · next p hp =>
    cases hl : p.lose_die with
    | error e => exact h
    | ok p' =>
      have hmid : ∀ j, (s.players.getD j default).state = PlayerState.LOST →
          (((s.players.set i p').getD j default)).state = PlayerState.LOST := by
        intro j hj
        by_cases hij : j = i
        · subst hij
          rw [getD_set_self _ (lt_length_of_get?_eq_some hp)]
          exact Player.lose_die_lost hl ((getD_of_get?_eq_some hp) ▸ hj)
        · rw [getD_set_ne _ hij]
          exact hj
      by_cases h0 : p'.get_dice_count = 0
      · simp only [if_pos h0]
        exact eliminate_player_lost i _ j (hmid j h)
      · simp only [if_neg h0]
        exact hmid j h

/-- `start_round` preserves `LOST` at every position (the activation step
goes through `set_state`, which refuses `LOST` players). -/
theorem start_round_lost (e : Nat → Nat → Nat) (s : RoundHandler) (j : Nat)
    (h : (s.players.getD j default).state = PlayerState.LOST) :
    (((s.start_round e).2).players.getD j default).state =
      PlayerState.LOST := by
  simp only [start_round]
  split
  · next er ps' heq =>
    have hst := rollAll_state e 0 s.players j
    rw [congrArg Prod.snd heq] at hst
    exact hst.trans h
  · next u ps' heq =>
    have hst : ∀ j, (ps'.getD j default).state =
        (s.players.getD j default).state := by
      intro j
      have hs := rollAll_state e 0 s.players j
      rw [congrArg Prod.snd heq] at hs
      exact hs
    split
    · exact (hst j).trans h
    · next p hp =>
      cases hset : p.set_state PlayerState.ACTIVE with
      | error er => exact (hst j).trans h
      | ok p' =>
        obtain ⟨hne, hp'⟩ := Player.set_state_ok hset
        by_cases hij : j = s.current_player_id
        · have hpl : p.state = PlayerState.LOST := by
            have h1 : (ps'.getD j default).state = PlayerState.LOST :=
              (hst j).trans h
            rw [hij, getD_of_get?_eq_some hp] at h1
            exact h1
          exact absurd hpl hne
        · rw [getD_set_ne _ hij]
          exact (hst j).trans h

/-- `next_player` preserves `LOST` at every position, provided the player at
`current_player_id` (whom it demotes unconditionally) is not `LOST`. -/
theorem next_player_lost (s : RoundHandler) (j : Nat)
    (hcur : (s.players.getD s.current_player_id default).state ≠
      PlayerState.LOST)
    (h : (s.players.getD j default).state = PlayerState.LOST) :
    (((s.next_player).2).players.getD j default).state =
      PlayerState.LOST := by
  simp only [next_player]
  split
  · exact h
  · next p hp =>
    have hjc : j ≠ s.current_player_id := by
      intro hh
      exact hcur (hh ▸ h)
    have hdemote : (((s.players.set s.current_player_id
        { p with state := PlayerState.WAITING }).getD j default)).state =
        PlayerState.LOST := by
      rw [getD_set_ne _ hjc]
      exact h
    split
    · exact hdemote
    · next ifound hfind =>
      have hw := List.find?_some hfind
      have hwst : ((s.players.set s.current_player_id
          { p with state := PlayerState.WAITING }).getD ifound default).state =
          PlayerState.WAITING := by
        simpa using hw
      have hji : j ≠ ifound := by
        intro hh
        rw [hh] at hdemote
        rw [hdemote] at hwst
        cases hwst
      rw [getD_set_ne _ hji]
      exact hdemote

/-- `make_bid` preserves `LOST` at every position under the same guard on the
current player (its only mutation of states is the `next_player` call). -/
theorem make_bid_lost (n : String) (q v : Int) (s : RoundHandler) (j : Nat)
    (hcur : (s.players.getD s.current_player_id default).state ≠
      PlayerState.LOST)
    (h : (s.players.getD j default).state = PlayerState.LOST) :
    (((s.make_bid n q v).2).players.getD j default).state =
      PlayerState.LOST := by
  simp only [make_bid]
  split
  · exact h
  · split
    · exact h
    · split
      · exact h
      · split
        · exact h
        · split
          · exact h
          · split
            · exact h
            · split
              · exact h
              · split
                · exact h
                · exact next_player_lost _ j hcur h

/-- `challenge_and_end_round` preserves `LOST` at every position. -/
theorem challenge_lost (e : Nat → Nat → Nat) (n : String) (s : RoundHandler)
    (j : Nat)
    (h : (s.players.getD j default).state = PlayerState.LOST) :
    (((s.challenge_and_end_round e n).2).players.getD j default).state =
      PlayerState.LOST := by
  simp only [challenge_and_end_round]
  split
  · exact h
  · next cb hcb =>
    split
    · exact h
    · next ci hci =>
      split
      · exact h
      · split
        · exact h
        · next cnt hcnt =>
          split
          · next er s1 heq =>
            have h1 := apply_penalty_lost
              (resolve_challenge cb.player ci cb.quantity cnt) s j h
            rw [heq] at h1
            exact h1
          · next u s1 heq =>
            have h1 := apply_penalty_lost
              (resolve_challenge cb.player ci cb.quantity cnt) s j h
            rw [heq] at h1
            split
            · next er s2 heq2 =>
              have h2 := resetLoop_lost s1.players j h1
              have hs2 : s2.players = (resetLoop s1.players).2 := by
                have := congrArg Prod.snd heq2
                simp only [reset_players_after_round] at this
                exact congrArg RoundHandler.players this.symm
              rw [hs2]
              exact h2
            · next u2 s2 heq2 =>
              have h2 := resetLoop_lost s1.players j h1
              have hs2 : s2.players = (resetLoop s1.players).2 := by
                have := congrArg Prod.snd heq2
                simp only [reset_players_after_round] at this
                exact congrArg RoundHandler.players this.symm
              have h2' : (s2.players.getD j default).state =
                  PlayerState.LOST := by
                rw [hs2]; exact h2
              split
              · split
                · next er s3 heq3 =>
                  have h3 := start_round_lost e s2 j h2'
                  rw [heq3] at h3
                  exact h3
                · next u3 s3 heq3 =>
                  have h3 := start_round_lost e s2 j h2'
                  rw [heq3] at h3
                  exact h3
              · split
                · exact h2'
                · exact h2'

end RoundHandler

/-- The two-player one-die game after Jan (the active, current player) is
handed a penalty that takes his last die: Jan is `LOST` while still sitting
at `current_player_id`. -/
def rhJanLost : RoundHandler := (rhJK1.apply_penalty 0).2

/-- C5 counterexample: `LOST` is not permanent.  Starting from the freshly
started two-player game `rhJK1`, `apply_penalty` on the active player Jan
(exactly what a lost self-challenge does) eliminates him; the very next
`next_player` call then demotes the `LOST` Jan back to `WAITING` by its
unguarded direct assignment — his state changes after `LOST`. -/
theorem C5_counterexample :
    (rhJanLost.players.getD 0 default).state = PlayerState.LOST ∧
    (rhJanLost.next_player).1 = .ok () ∧
    (((rhJanLost.next_player).2).players.getD 0 default).state =
      PlayerState.WAITING := by
  decide

/-- C5 (amended): every `setState` call on a `LOST` player fails with
`InvalidState` (hence leaves the state unchanged), and `startRound`,
`challengeAndEndRound` and `applyPenalty` never change a `LOST` player's
state; `nextPlayer` (and therefore `makeBid`, which ends in it) preserves
`LOST` players only under the guard that the player at `currentPlayerIndex`
is not `LOST` — without that guard `nextPlayer` demotes a `LOST` current
player to `WAITING`, so `LOST` is not a fully terminal state. -/
theorem C5_lost_terminal_guarded :
    (∀ (p : Player) (st : PlayerState), p.state = PlayerState.LOST →
       p.set_state st =
         .error (.InvalidState "Player cannot come back after losing")) ∧
    (∀ (e : Nat → Nat → Nat) (s : RoundHandler) (j : Nat),
       (s.players.getD j default).state = PlayerState.LOST →
       (((s.start_round e).2).players.getD j default).state =
         PlayerState.LOST) ∧
    (∀ (e : Nat → Nat → Nat) (n : String) (s : RoundHandler) (j : Nat),
       (s.players.getD j default).state = PlayerState.LOST →
       (((s.challenge_and_end_round e n).2).players.getD j default).state =
         PlayerState.LOST) ∧
    (∀ (i : Nat) (s : RoundHandler) (j : Nat),
       (s.players.getD j default).state = PlayerState.LOST →
       (((s.apply_penalty i).2).players.getD j default).state =
         PlayerState.LOST) ∧
    (∀ (s : RoundHandler) (j : Nat),
       (s.players.getD s.current_player_id default).state ≠
         PlayerState.LOST →
       (s.players.getD j default).state = PlayerState.LOST →
       (((s.next_player).2).players.getD j default).state =
         PlayerState.LOST) ∧
    (∀ (n : String) (q v : Int) (s : RoundHandler) (j : Nat),
       (s.players.getD s.current_player_id default).state ≠
         PlayerState.LOST →
       (s.players.getD j default).state = PlayerState.LOST →
       (((s.make_bid n q v).2).players.getD j default).state =
         PlayerState.LOST) := by
  refine ⟨?_, RoundHandler.start_round_lost, RoundHandler.challenge_lost,
    RoundHandler.apply_penalty_lost, RoundHandler.next_player_lost,
    RoundHandler.make_bid_lost⟩
  intro p st hl
  simp only [Player.set_state, if_pos hl]

/-- C5 witness: `setState` refuses the eliminated `bobZero`; a round start
and a rotation from `rhBobLost` (current player Kow is not `LOST`) keep Bob
`LOST`. -/
theorem C5_witness :
    bobZero.set_state PlayerState.WAITING =
      .error (.InvalidState "Player cannot come back after losing") ∧
    (((rhBobLost.start_round entZero).2).players.getD 0 default).state =
      PlayerState.LOST ∧
    (((rhBobLost.next_player).2).players.getD 0 default).state =
      PlayerState.LOST := by
  refine ⟨C5_lost_terminal_guarded.1 bobZero PlayerState.WAITING (by decide),
    C5_lost_terminal_guarded.2.1 entZero rhBobLost 0 (by decide),
    C5_lost_terminal_guarded.2.2.2.2.1 rhBobLost 0 (by decide) (by decide)⟩

/-! ## C8 — `next_player` rotation -/

/-- Positions visited by the circular scan strictly before it returns to the
demoted current position: in range and distinct from `cur`. -/
theorem scan_elem_props {m c k : Nat} (hcur : c ≤ m) (hk : k < m) :
    (c + 1 + k) % (m + 1) < m + 1 ∧ (c + 1 + k) % (m + 1) ≠ c := by
  refine ⟨Nat.mod_lt _ (by omega), ?_⟩
  by_cases hsm : c + 1 + k < m + 1
  · rw [Nat.mod_eq_of_lt hsm]
    omega
  · rw [Nat.mod_eq_sub_mod (by omega), Nat.mod_eq_of_lt (by omega)]
    omega

/-- Any position other than `cur` is visited by the scan strictly before it
returns to `cur`. -/
theorem scan_hit {m c j : Nat} (hcur : c ≤ m) (hj : j ≤ m)
    (hne : j ≠ c) : ∃ k, k < m ∧ (c + 1 + k) % (m + 1) = j := by
  by_cases hc : c + 1 ≤ j
  · refine ⟨j - (c + 1), by omega, ?_⟩
    rw [show c + 1 + (j - (c + 1)) = j by omega]
    exact Nat.mod_eq_of_lt (by omega)
  · refine ⟨j + m - c, by omega, ?_⟩
    rw [show c + 1 + (j + m - c) = j + (m + 1) by omega,
      Nat.add_mod_right]
    exact Nat.mod_eq_of_lt (by omega)

/-- `find?` over `A ++ [c]` lands in `A` whenever `A` contains a hit: the
scan stops before it reaches its final candidate. -/
theorem find?_append_singleton_mem {A : List Nat} {c i : Nat}
    {pred : Nat → Bool} (hfind : (A ++ [c]).find? pred = some i)
    (hexA : ∃ x, x ∈ A ∧ pred x = true) : i ∈ A ∧ pred i = true := by
  rw [List.find?_append] at hfind
  have hsome : (A.find? pred).isSome := List.find?_isSome.mpr hexA
  obtain ⟨i', hi'⟩ := Option.isSome_iff_exists.mp hsome
  rw [hi', Option.or_some] at hfind
  cases hfind
  exact ⟨List.mem_of_find?_eq_some hi', List.find?_some hi'⟩

/-- A single active player holding one die, alone at the table. -/
def rhSolo : RoundHandler :=
  { players := [{ name := "Jan", state := PlayerState.ACTIVE,
                  dice := diceSix 1, last_roll := [] }]
    round_number := 1
    current_player_id := 0
    current_bid := none
    dice_count := 1 }

/-- C8 counterexample: with the single-player list `rhSolo` the list does
contain a WAITING player after the current actor is demoted (the demoted
actor themselves), yet after `next_player` returns, the previous current
actor is ACTIVE again — not WAITING as the claim requires: the scan wraps
all the way around and re-selects the player it just demoted. -/
theorem C8_counterexample :
    (rhSolo.next_player).1 = .ok () ∧
    (((rhSolo.players.set 0
        { rhSolo.players.getD 0 default with state := PlayerState.WAITING })
      ).countP (fun p => p.state = PlayerState.WAITING)) = 1 ∧
    (((rhSolo.next_player).2).players.getD 0 default).state =
      PlayerState.ACTIVE := by
  decide

/-- C8 (amended): whenever some player *other than the current actor* is
WAITING, `next_player` succeeds and selects a player `i` distinct from the
current index whose prior state was WAITING (so never a LOST player);
afterwards `i` is ACTIVE, the previous current actor is WAITING, every other
player is untouched, and — provided no player besides the current actor was
ACTIVE — player `i` is the unique ACTIVE player. -/
theorem C8_next_player_rotation (s : RoundHandler)
    (hcur : s.current_player_id < s.players.length)
    (hex : ∃ j, j < s.players.length ∧ j ≠ s.current_player_id ∧
      (s.players.getD j default).state = PlayerState.WAITING) :
    ∃ i, (s.next_player).1 = .ok () ∧
      (s.next_player).2.current_player_id = i ∧
      i < s.players.length ∧ i ≠ s.current_player_id ∧
      (s.players.getD i default).state = PlayerState.WAITING ∧
      (((s.next_player).2).players.getD i default).state =
        PlayerState.ACTIVE ∧
      (((s.next_player).2).players.getD s.current_player_id default).state =
        PlayerState.WAITING ∧
      (∀ l, l ≠ i → l ≠ s.current_player_id →
        ((s.next_player).2).players.getD l default =
          s.players.getD l default) ∧
      ((∀ l, l < s.players.length → l ≠ s.current_player_id →
          (s.players.getD l default).state ≠ PlayerState.ACTIVE) →
        ∀ l, l < s.players.length →
          ((((s.next_player).2).players.getD l default).state =
            PlayerState.ACTIVE ↔ l = i)) := by
  obtain ⟨j, hjlt, hjne, hjw⟩ := hex
  obtain ⟨m, hm⟩ : ∃ m, s.players.length = m + 1 := ⟨s.players.length - 1, by omega⟩
  have hp : s.players.get? s.current_player_id =
      some (s.players.getD s.current_player_id default) := by
    simp [List.get?_eq_getElem?, List.getElem?_eq_getElem hcur,
      List.getD_eq_getElem?_getD]
  simp only [RoundHandler.next_player, hp, List.length_set, hm]
  split
  · next hfind_none =>
    exfalso
    rw [List.find?_eq_none] at hfind_none
    obtain ⟨k, hk, hkj⟩ := scan_hit (m := m) (by omega) (by omega) hjne
    refine hfind_none j (List.mem_map.mpr ⟨k, List.mem_range.mpr (by omega), hkj⟩) ?_
    simp only [decide_eq_true_eq]
    rw [getD_set_ne _ hjne]
    exact hjw
  · next i hfind =>
    rw [List.range_succ, List.map_append, List.map_cons, List.map_nil] at hfind
    have hjmem : j ∈ (List.range m).map
        (fun k => (s.current_player_id + 1 + k) % (m + 1)) := by
      obtain ⟨k, hk, hkj⟩ := scan_hit (m := m) (by omega) (by omega) hjne
      exact List.mem_map.mpr ⟨k, List.mem_range.mpr hk, hkj⟩
    have hjpred : decide (((s.players.set s.current_player_id
        { s.players.getD s.current_player_id default with
          state := PlayerState.WAITING }).getD j default).state =
        PlayerState.WAITING) = true := by
      simp only [decide_eq_true_eq]
      rw [getD_set_ne _ hjne]
      exact hjw
    obtain ⟨himem, hipred⟩ := find?_append_singleton_mem hfind
      ⟨j, hjmem, hjpred⟩
    obtain ⟨k, hkmem, hkf⟩ := List.mem_map.mp himem
    have hk : k < m := List.mem_range.mp hkmem
    obtain ⟨hilt, hine⟩ := scan_elem_props (c := s.current_player_id)
      (by omega) hk
    rw [hkf] at hilt hine
    have hiw : (s.players.getD i default).state = PlayerState.WAITING := by
      have := hipred
      simp only [decide_eq_true_eq] at this
      rw [getD_set_ne _ hine] at this
      exact this
    have hlen : (s.players.set s.current_player_id
        { s.players.getD s.current_player_id default with
          state := PlayerState.WAITING }).length = m + 1 := by
      simp [hm]
    refine ⟨i, rfl, rfl, by omega, hine, hiw, ?_, ?_, ?_, ?_⟩
    · rw [getD_set_self _ (by omega : i < (s.players.set s.current_player_id
        { s.players.getD s.current_player_id default with
          state := PlayerState.WAITING }).length)]
    · rw [getD_set_ne _ (fun hh => hine hh.symm),
        getD_set_self _ (by omega : s.current_player_id <
          s.players.length)]
    · intro l hli hlc
      rw [getD_set_ne _ hli, getD_set_ne _ hlc]
    · intro hnoact l hllt
      constructor
      · intro hact
        by_contra hli
        rw [getD_set_ne _ hli] at hact
        by_cases hlc : l = s.current_player_id
        · rw [hlc, getD_set_self _ (by omega : s.current_player_id <
            s.players.length)] at hact
          cases hact
        · rw [getD_set_ne _ hlc] at hact
          exact hnoact l hllt hlc hact
      · intro hli
        rw [hli]
        rw [getD_set_self _ (by omega : i < (s.players.set s.current_player_id
          { s.players.getD s.current_player_id default with
            state := PlayerState.WAITING }).length)]

/-- C8 witness: in `rhBidLow` (Jan active at index 0, Kow waiting at index
1), the rotation succeeds and leaves the previous current actor Jan in
WAITING. -/
theorem C8_witness :
    (rhBidLow.next_player).1 = .ok () ∧
    (((rhBidLow.next_player).2).players.getD 0 default).state =
      PlayerState.WAITING := by
  obtain ⟨i, h1, h2, h3, h4, h5, h6, h7, h8, h9⟩ :=
    C8_next_player_rotation rhBidLow (by decide)
      ⟨1, by decide, by decide, by decide⟩
  exact ⟨h1, h7⟩

/-! ## C9 / C10 — reachable states of the composed game -/

/-- A `Player` method lifted to the round state: Python calls the method on
the aliased list element, which is an in-place update at its index (a raised
exception leaves the list untouched since every `Player` method mutates only
on success). -/
def RoundHandler.modPlayer (i : Nat) (f : Player → Except Err Player)
    (s : RoundHandler) : RoundHandler :=
  match s.players.get? i with
  | none => s
  | some p =>
    match f p with
    | .error _ => s
    | .ok p' => { s with players := s.players.set i p' }

/-- A game state never holds a player in state `WON`. -/
def noWonAt (s : RoundHandler) : Prop :=
  ∀ j, (s.players.getD j default).state ≠ PlayerState.WON

namespace Player

/-- `lose_die` writes only the old state or `LOST`. -/
theorem lose_die_state_cases {p p' : Player} (h : p.lose_die = .ok p') :
    p'.state = p.state ∨ p'.state = PlayerState.LOST := by
  unfold lose_die at h
  split at h
  · cases h
  · cases h
    simp only
    split
    · exact Or.inr rfl
    · exact Or.inl rfl

end Player

namespace RoundHandler

/-- `eliminate_player` never writes `WON`. -/
theorem eliminate_noWon {s : RoundHandler} (h : noWonAt s) (i : Nat) :
    noWonAt (s.eliminate_player i) := by
  intro j
  simp only [eliminate_player]
  split
  · exact h j
  · next p hp =>
    by_cases hij : j = i
    · subst hij
      rw [getD_set_self _ (lt_length_of_get?_eq_some hp)]
      intro hh
      cases hh
    · rw [getD_set_ne _ hij]
      exact h j

/-- `apply_penalty` never writes `WON`. -/
theorem apply_penalty_noWon {s : RoundHandler} (h : noWonAt s) (i : Nat) :
    noWonAt ((s.apply_penalty i).2) := by
  intro j
  simp only [apply_penalty]
  split
  · exact h j
  · next p hp =>
    cases hl : p.lose_die with
    | error e => exact h j
    | ok p' =>
      have hmid : noWonAt { s with players := s.players.set i p' } := by
        intro j'
        simp only
        by_cases hij : j' = i
        · subst hij
          rw [getD_set_self _ (lt_length_of_get?_eq_some hp)]
          rcases Player.lose_die_state_cases hl with hc | hc
          · rw [hc, ← getD_of_get?_eq_some hp]
            exact h _
          · rw [hc]
            intro hh
            cases hh
        · rw [getD_set_ne _ hij]
          exact h j'
      by_cases h0 : p'.get_dice_count = 0
      · simp only [if_pos h0]
        exact eliminate_noWon hmid i j
      · simp only [if_neg h0]
        exact hmid j

/-- The reset loop never writes `WON`. -/
theorem resetLoop_noWon :
    ∀ ps : List Player, (∀ j, ((ps.getD j default)).state ≠ PlayerState.WON) →
      ∀ j, (((resetLoop ps).2).getD j default).state ≠ PlayerState.WON := by
  intro ps
  induction ps with
  | nil => intro h j; exact h j
  | cons p rest ih =>
    intro h j
    have hrest : ∀ j', ((rest.getD j' default)).state ≠ PlayerState.WON :=
      fun j' => by simpa using h (j' + 1)
    simp only [resetLoop]
    cases hr : p.reset_roll with
    | error e => exact h j
    | ok p1 =>
      obtain ⟨hne, hst⟩ := Player.reset_roll_ok hr
      cases j with
      | zero =>
        by_cases h0 : p1.get_dice_count = 0
        · simp only [if_pos h0]
          intro hh
          cases hh
        · simp only [if_neg h0]
          cases hs : p1.set_state PlayerState.WAITING with
          | error e => simpa [hst] using h 0
          | ok p2 =>
            obtain ⟨-, hp2⟩ := Player.set_state_ok hs
            subst hp2
            intro hh
            cases hh
      | succ j =>
        by_cases h0 : p1.get_dice_count = 0
        · simp only [if_pos h0]
          simpa using ih hrest j
        · simp only [if_neg h0]
          cases hs : p1.set_state PlayerState.WAITING with
          | error e => simpa using h (j + 1)
          | ok p2 => simpa using ih hrest j

/-- `start_round` never writes `WON`. -/
theorem start_round_noWon {s : RoundHandler} (h : noWonAt s)
    (e : Nat → Nat → Nat) : noWonAt ((s.start_round e).2) := by
  intro j
  simp only [start_round]
  split
  · next er ps' heq =>
    have hst := rollAll_state e 0 s.players j
    rw [congrArg Prod.snd heq] at hst
    simp only
    rw [hst]
    exact h j
  · next u ps' heq =>
    have hst : ∀ j, (ps'.getD j default).state =
        (s.players.getD j default).state := by
      intro j'
      have hs := rollAll_state e 0 s.players j'
      rw [congrArg Prod.snd heq] at hs
      exact hs
    split
    · simp only
      rw [hst j]
      exact h j
    · next p hp =>
      cases hset : p.set_state PlayerState.ACTIVE with
      | error er =>
        simp only
        rw [hst j]
        exact h j
      | ok p' =>
        obtain ⟨-, hp'⟩ := Player.set_state_ok hset
        subst hp'
        by_cases hij : j = s.current_player_id
        · subst hij
          rw [getD_set_self _ (lt_length_of_get?_eq_some hp)]
          intro hh
          cases hh
        · rw [getD_set_ne _ hij, hst j]
          exact h j

/-- `next_player` never writes `WON`. -/
theorem next_player_noWon {s : RoundHandler} (h : noWonAt s) :
    noWonAt ((s.next_player).2) := by
  intro j
  simp only [next_player]
  split
  · exact h j
  · next p hp =>
    have hdem : ∀ j', (((s.players.set s.current_player_id
        { p with state := PlayerState.WAITING }).getD j' default)).state ≠
        PlayerState.WON := by
      intro j'
      by_cases hij : j' = s.current_player_id
      · subst hij
        rw [getD_set_self _ (lt_length_of_get?_eq_some hp)]
        intro hh
        cases hh
      · rw [getD_set_ne _ hij]
        exact h j'
    split
    · exact hdem j
    · next ifound hfind =>
      have himem := List.mem_of_find?_eq_some hfind
      obtain ⟨k, hkmem, hkf⟩ := List.mem_map.mp himem
      have hilt : ifound < (s.players.set s.current_player_id
          { p with state := PlayerState.WAITING }).length := by
        rw [← hkf]
        exact Nat.mod_lt _ (by
          have := lt_length_of_get?_eq_some hp
          simp only [List.length_set]
          omega)
      by_cases hij : j = ifound
      · subst hij
        rw [getD_set_self _ hilt]
        intro hh
        cases hh
      · rw [getD_set_ne _ hij]
        exact hdem j

/-- `make_bid` never writes `WON`. -/
theorem make_bid_noWon {s : RoundHandler} (h : noWonAt s) (n : String)
    (q v : Int) : noWonAt ((s.make_bid n q v).2) := by
  intro j
  simp only [make_bid]
  split
  · exact h j
  · split
    · exact h j
    · split
      · exact h j
      · split
        · exact h j
        · split
          · exact h j
          · split
            · exact h j
            · split
              · exact h j
              · next nb hnb =>
                split
                · exact h j
                · exact next_player_noWon
                    (s := { s with current_bid := some nb })
                    (fun j' => h j') j

/-- `challenge_and_end_round` never writes `WON`. -/
theorem challenge_noWon {s : RoundHandler} (h : noWonAt s)
    (e : Nat → Nat → Nat) (n : String) :
    noWonAt ((s.challenge_and_end_round e n).2) := by
  intro j
  simp only [challenge_and_end_round]
  split
  · exact h j
  · next cb hcb =>
    split
    · exact h j
    · next ci hci =>
      split
      · exact h j
      · split
        · exact h j
        · next cnt hcnt =>
          split
          · next er s1 heq =>
            have h1 := apply_penalty_noWon h
              (resolve_challenge cb.player ci cb.quantity cnt)
            rw [heq] at h1
            exact h1 j
          · next u s1 heq =>
            have h1 := apply_penalty_noWon h
              (resolve_challenge cb.player ci cb.quantity cnt)
            rw [heq] at h1
            split
            · next er s2 heq2 =>
              have hs2 : s2.players = (resetLoop s1.players).2 := by
                have := congrArg Prod.snd heq2
                simp only [reset_players_after_round] at this
                exact congrArg RoundHandler.players this.symm
              intro hh
              rw [hs2] at hh
              exact resetLoop_noWon s1.players (fun j' => h1 j') j hh
            · next u2 s2 heq2 =>
              have hs2 : s2.players = (resetLoop s1.players).2 := by
                have := congrArg Prod.snd heq2
                simp only [reset_players_after_round] at this
                exact congrArg RoundHandler.players this.symm
              have h2 : noWonAt s2 := by
                intro j'
                rw [hs2]
                exact resetLoop_noWon s1.players (fun j'' => h1 j'') j'
              split
              · split
                · next er s3 heq3 =>
                  have h3 := start_round_noWon h2 e
                  rw [heq3] at h3
                  exact h3 j
                · next u3 s3 heq3 =>
                  have h3 := start_round_noWon h2 e
                  rw [heq3] at h3
                  exact h3 j
              · split
                · exact h2 j
                · exact h2 j

/-- Lifted `Player` methods never write `WON` when the method itself cannot
produce it. -/
theorem modPlayer_noWon {s : RoundHandler} (h : noWonAt s) (i : Nat)
    {f : Player → Except Err Player}
    (hf : ∀ p p', f p = .ok p' → p.state ≠ PlayerState.WON →
      p'.state ≠ PlayerState.WON) :
    noWonAt (s.modPlayer i f) := by
  intro j
  simp only [modPlayer]
  split
  · exact h j
  · next p hp =>
    split
    · exact h j
    · next p' hp' =>
      by_cases hij : j = i
      · subst hij
        rw [getD_set_self _ (lt_length_of_get?_eq_some hp)]
        exact hf p p' hp' (by rw [← getD_of_get?_eq_some hp]; exact h _)
      · rw [getD_set_ne _ hij]
        exact h j

end RoundHandler

namespace GameHandler

/-- Unfolding equation of `create_players` on a non-empty name list. -/
theorem create_players_cons (d : Int) (n : String) (rest : List String) :
    create_players d (n :: rest) =
      (match Player.init n d with
       | .error e => .error e
       | .ok p =>
         match create_players d rest with
         | .error e => .error e
         | .ok ps => .ok (p :: ps)) := rfl

/-- A player built by `Player.init` starts in `WAITING`. -/
theorem player_init_state {n : String} {d : Int} {p : Player}
    (h : Player.init n d = .ok p) : p.state = PlayerState.WAITING := by
  unfold Player.init at h
  split at h
  · cases h
  · cases h; rfl

/-- Every player created by `create_players` starts in `WAITING`. -/
theorem create_players_state {d : Int} :
    ∀ (names : List String) (ps : List Player),
      create_players d names = .ok ps →
      ∀ j, j < ps.length →
        (ps.getD j default).state = PlayerState.WAITING := by
  intro names
  induction names with
  | nil =>
    intro ps h j hj
    cases h
    simp at hj
  | cons n rest ih =>
    intro ps h j hj
    rw [create_players_cons] at h
    cases hpi : Player.init n d with
    | error e => rw [hpi] at h; cases h
    | ok p =>
      rw [hpi] at h
      cases hrest : create_players d rest with
      | error e => rw [hrest] at h; cases h
      | ok ps' =>
        rw [hrest] at h
        cases h
        cases j with
        | zero => simpa using player_init_state hpi
        | succ j =>
          have hj' : j < ps'.length := by simpa using hj
          simpa using ih ps' hrest j hj'

/-- Destructing a successful `GameHandler` construction. -/
theorem init_ok {names : List String} {d : Int} {g : GameHandler}
    (h : init names d = .ok g) :
    g.game_state = GameState.RUNNING ∧
    ∃ ps, create_players d names = .ok ps ∧ g.rh = RoundHandler.init ps := by
  unfold init at h
  split at h
  · cases h
  · split at h
    · cases h
    · next ps hps =>
      cases h
      exact ⟨rfl, ps, hps, rfl⟩

/-- `GameHandler.start_round` never touches `game_state`. -/
theorem game_state_start_round (e : Nat → Nat → Nat) (g : GameHandler) :
    ((g.start_round e).2).game_state = g.game_state := rfl

/-- `play_bid_turn` never touches `game_state`. -/
theorem game_state_play_bid (i : Nat) (q v : Int) (g : GameHandler) :
    ((g.play_bid_turn i q v).2).game_state = g.game_state := by
  simp only [play_bid_turn]
  split
  · rfl
  · split <;> rfl

/-- `play_challenge_turn` never touches `game_state`. -/
theorem game_state_play_challenge (e : Nat → Nat → Nat) (i : Nat)
    (g : GameHandler) :
    ((g.play_challenge_turn e i).2).game_state = g.game_state := by
  simp only [play_challenge_turn]
  split
  · rfl
  · split <;> rfl

end GameHandler

/-- States of the composed game reachable through the core's operations:
construction, the `GameHandler` turn operations, every `RoundHandler`
operation, and the `Player` methods lifted to the shared list.  (`set_state`
appears only through the operations that call it, with the arguments the
code passes.) -/
inductive Reachable : GameHandler → Prop where
  | init (names : List String) (d : Int) (g : GameHandler) :
      GameHandler.init names d = .ok g → Reachable g
  | gh_start_round (e : Nat → Nat → Nat) (g : GameHandler) :
      Reachable g → Reachable ((g.start_round e).2)
  | gh_play_bid (i : Nat) (q v : Int) (g : GameHandler) :
      Reachable g → Reachable ((g.play_bid_turn i q v).2)
  | gh_play_challenge (e : Nat → Nat → Nat) (i : Nat) (g : GameHandler) :
      Reachable g → Reachable ((g.play_challenge_turn e i).2)
  | rh_start_round (e : Nat → Nat → Nat) (g : GameHandler) :
      Reachable g → Reachable { g with rh := (g.rh.start_round e).2 }
  | rh_make_bid (n : String) (q v : Int) (g : GameHandler) :
      Reachable g → Reachable { g with rh := (g.rh.make_bid n q v).2 }
  | rh_next_player (g : GameHandler) :
      Reachable g → Reachable { g with rh := (g.rh.next_player).2 }
  | rh_challenge (e : Nat → Nat → Nat) (n : String) (g : GameHandler) :
      Reachable g →
      Reachable { g with rh := (g.rh.challenge_and_end_round e n).2 }
  | rh_apply_penalty (i : Nat) (g : GameHandler) :
      Reachable g → Reachable { g with rh := (g.rh.apply_penalty i).2 }
  | rh_reset (g : GameHandler) :
      Reachable g → Reachable { g with rh := (g.rh.reset_players_after_round).2 }
  | rh_eliminate (i : Nat) (g : GameHandler) :
      Reachable g → Reachable { g with rh := g.rh.eliminate_player i }
  | p_lose_die (i : Nat) (g : GameHandler) :
      Reachable g → Reachable { g with rh := g.rh.modPlayer i Player.lose_die }
  | p_reset_roll (i : Nat) (g : GameHandler) :
      Reachable g → Reachable { g with rh := g.rh.modPlayer i Player.reset_roll }
  | p_make_roll (e : Nat → Nat) (c : Int) (i : Nat) (g : GameHandler) :
      Reachable g →
      Reachable { g with rh := g.rh.modPlayer i (Player.make_roll e c) }

/-- Fixture: a fresh two-player game with two dice each. -/
def ghTwo : GameHandler :=
  match GameHandler.init ["Ann", "Ben"] 2 with
  | .ok g => g
  | .error _ => default

/-- C9: `gameState` is `RUNNING` at construction, no operation of
`GameHandler` touches it, and every state reachable through the core's
operations (including challenges that detect the game end) still carries
`RUNNING` — `OVER` is unreachable inside the core. -/
theorem C9_game_state_running :
    (∀ (names : List String) (d : Int) (g : GameHandler),
       GameHandler.init names d = .ok g →
       g.game_state = GameState.RUNNING) ∧
    (∀ (e : Nat → Nat → Nat) (g : GameHandler),
       ((g.start_round e).2).game_state = g.game_state) ∧
    (∀ (i : Nat) (q v : Int) (g : GameHandler),
       ((g.play_bid_turn i q v).2).game_state = g.game_state) ∧
    (∀ (e : Nat → Nat → Nat) (i : Nat) (g : GameHandler),
       ((g.play_challenge_turn e i).2).game_state = g.game_state) ∧
    (∀ g : GameHandler, Reachable g → g.game_state = GameState.RUNNING) := by
  refine ⟨fun names d g h => (GameHandler.init_ok h).1,
    GameHandler.game_state_start_round, GameHandler.game_state_play_bid,
    GameHandler.game_state_play_challenge, ?_⟩
  intro g hr
  induction hr with
  | init names d g h => exact (GameHandler.init_ok h).1
  | gh_start_round e g hr ih =>
    rw [GameHandler.game_state_start_round]; exact ih
  | gh_play_bid i q v g hr ih =>
    rw [GameHandler.game_state_play_bid]; exact ih
  | gh_play_challenge e i g hr ih =>
    rw [GameHandler.game_state_play_challenge]; exact ih
  | rh_start_round e g hr ih => exact ih
  | rh_make_bid n q v g hr ih => exact ih
  | rh_next_player g hr ih => exact ih
  | rh_challenge e n g hr ih => exact ih
  | rh_apply_penalty i g hr ih => exact ih
  | rh_reset g hr ih => exact ih
  | rh_eliminate i g hr ih => exact ih
  | p_lose_die i g hr ih => exact ih
  | p_reset_roll i g hr ih => exact ih
  | p_make_roll e c i g hr ih => exact ih

/-- C9 witness: the freshly constructed two-player game is reachable and
runs in state `RUNNING`. -/
theorem C9_witness : ghTwo.game_state = GameState.RUNNING :=
  C9_game_state_running.2.2.2.2 ghTwo
    (Reachable.init ["Ann", "Ben"] 2 ghTwo (by decide))

/-- C10: every player starts in `WAITING` at construction, and in every
state reachable through the core's operations no player is ever in state
`WON` — the core never assigns `WON` (only the out-of-scope CLI in
`main.py` does). -/
theorem C10_no_won :
    (∀ (names : List String) (d : Int) (g : GameHandler),
       GameHandler.init names d = .ok g →
       ∀ j, j < g.rh.players.length →
         (g.rh.players.getD j default).state = PlayerState.WAITING) ∧
    (∀ g : GameHandler, Reachable g → noWonAt g.rh) := by
  have hinit : ∀ (names : List String) (d : Int) (g : GameHandler),
      GameHandler.init names d = .ok g →
      ∀ j, j < g.rh.players.length →
        (g.rh.players.getD j default).state = PlayerState.WAITING := by
    intro names d g h j hj
    obtain ⟨-, ps, hps, hrh⟩ := GameHandler.init_ok h
    rw [hrh] at hj ⊢
    exact GameHandler.create_players_state names ps hps j hj
  refine ⟨hinit, ?_⟩
  intro g hr
  induction hr with
  | init names d g h =>
    intro j
    by_cases hj : j < g.rh.players.length
    · rw [hinit names d g h j hj]
      intro hh
      cases hh
    · rw [getD_out_of_range (by omega)]
      decide
  | gh_start_round e g hr ih =>
    exact RoundHandler.start_round_noWon ih e
  | gh_play_bid i q v g hr ih =>
    simp only [GameHandler.play_bid_turn]
    split
    · exact ih
    · split
      · exact ih
      · exact RoundHandler.make_bid_noWon ih _ _ _
  | gh_play_challenge e i g hr ih =>
    simp only [GameHandler.play_challenge_turn]
    split
    · exact ih
    · split
      · exact ih
      · exact RoundHandler.challenge_noWon ih e _
  | rh_start_round e g hr ih => exact RoundHandler.start_round_noWon ih e
  | rh_make_bid n q v g hr ih => exact RoundHandler.make_bid_noWon ih n q v
  | rh_next_player g hr ih => exact RoundHandler.next_player_noWon ih
  | rh_challenge e n g hr ih => exact RoundHandler.challenge_noWon ih e n
  | rh_apply_penalty i g hr ih => exact RoundHandler.apply_penalty_noWon ih i
  | rh_reset g hr ih =>
    intro j
    exact RoundHandler.resetLoop_noWon g.rh.players (fun j' => ih j') j
  | rh_eliminate i g hr ih => exact RoundHandler.eliminate_noWon ih i
  | p_lose_die i g hr ih =>
    refine RoundHandler.modPlayer_noWon ih i ?_
    intro p p' hok hne
    rcases Player.lose_die_state_cases hok with hc | hc
    · rw [hc]; exact hne
    · rw [hc]; intro hh; cases hh
  | p_reset_roll i g hr ih =>
    refine RoundHandler.modPlayer_noWon ih i ?_
    intro p p' hok hne
    rw [(Player.reset_roll_ok hok).2]
    exact hne
  | p_make_roll e c i g hr ih =>
    refine RoundHandler.modPlayer_noWon ih i ?_
    intro p p' hok hne
    rw [Player.make_roll_state hok]
    exact hne

/-- C10 witness: in the reachable fresh game `ghTwo` the first player starts
`WAITING` and is not `WON`. -/
theorem C10_witness :
    (ghTwo.rh.players.getD 0 default).state = PlayerState.WAITING ∧
    (ghTwo.rh.players.getD 0 default).state ≠ PlayerState.WON :=
  ⟨C10_no_won.1 ["Ann", "Ben"] 2 ghTwo (by decide) 0 (by decide),
   C10_no_won.2 ghTwo (Reachable.init ["Ann", "Ben"] 2 ghTwo (by decide)) 0⟩
